import Mathlib

/-!
Verification of the order-creation orchestration path of the Order Service
(`src/services/order_service/main.py` and `models.py`).

The embedding models:
  * the `Order` row and the store (a list of rows plus the autoincrement
    counter used for surrogate ids);
  * the external gateways as an environment record: identity lookup
    (`Option User`, `none` covering every failure of `user_client.get_user`),
    the billing gateway (`BillingResult`: either the call threw, or it
    returned a payload dictionary with optional `withdrawn`/`message`/`balance`
    entries), and whether the commit raised an `IntegrityError` for a reason
    other than the modelled idempotency-key uniqueness constraint (a concurrent
    writer or another constraint; `injectIntegrityError`);
  * the handler `create_order` as a function from payload, optional
    `Idempotency-Key` header value, environment and store to a response,
    the resulting store, and a record of which gateways were invoked.

Monetary amounts (`price`, `balance`) are rationals; `user_id` is an integer.
-/

namespace OrderService

/-- `OrderStatus` from `models.py`: terminal status of an order. -/
inductive OrderStatus where
  | CONFIRMED
  | FAILED
  deriving Repr, DecidableEq

/-- `Order` table row from `models.py`.  `created_at` is modelled as the
store tick at insertion time (the source uses a wall-clock timestamp, used
only for ordering in listings). -/
structure Order where
  id : Nat
  user_id : Int
  price : Rat
  status : OrderStatus
  message : String
  created_at : Nat
  idempotency_key : Option String
  deriving Repr, DecidableEq

/-- `OrderRead` from `models.py`: the externally returned representation;
it omits `idempotency_key`. -/
structure OrderRead where
  id : Nat
  user_id : Int
  price : Rat
  status : OrderStatus
  message : String
  created_at : Nat
  deriving Repr, DecidableEq

/-- `OrderRead(**order.model_dump())`: project a row to its representation. -/
def orderRead (o : Order) : OrderRead :=
  ⟨o.id, o.user_id, o.price, o.status, o.message, o.created_at⟩

/-- The orders table: persisted rows plus the autoincrement id counter. -/
structure Store where
  orders : List Order
  nextId : Nat
  deriving Repr, DecidableEq

/-- `OrderCreate` from `models.py`: a request body that passed validation. -/
structure OrderCreate where
  user_id : Int
  price : Rat
  deriving Repr, DecidableEq

/-- A raw request body, before pydantic validation. -/
structure RawRequest where
  user_id : Int
  price : Rat
  deriving Repr, DecidableEq

/-- Pydantic validation of `OrderCreate` (`user_id: ge=1`, `price: gt=0`):
an invalid body is rejected before the handler runs. -/
def validateOrderCreate (r : RawRequest) : Option OrderCreate :=
  if 1 ≤ r.user_id ∧ 0 < r.price then some ⟨r.user_id, r.price⟩ else none

/-- Identity-gateway profile data (`user_client.get_user` result). -/
structure User where
  email : String
  deriving Repr, DecidableEq

/-- Result of `billing_client.withdraw`: either the call threw (`exn`), or
it returned a dictionary; `withdrawn` defaults to `False`, `message` to `""`
and `balance` renders as `"n/a"` when absent (`payment.get` defaults). -/
inductive BillingResult where
  | exn
  | ok (withdrawn : Bool) (message : Option String) (balance : Option Rat)
  deriving Repr, DecidableEq

/-- Behaviour of the external collaborators during one request.
`injectIntegrityError` models the commit raising `IntegrityError` for a
reason other than the sequentially-visible idempotency-key conflict
(e.g. a concurrent writer that won the race). -/
structure Env where
  identity : Option User
  billing : BillingResult
  injectIntegrityError : Bool
  deriving Repr, DecidableEq

/-- HTTP-level outcome of the endpoint. -/
inductive Response where
  | created (o : OrderRead)
  | notFound
  | serverError
  | unprocessable
  deriving Repr, DecidableEq

/-- Which gateways the handler invoked during one request. -/
structure Effects where
  identityCalled : Bool
  billingCalled : Bool
  notified : Bool
  deriving Repr, DecidableEq

/-- Result of one handler invocation: response, resulting store, effects. -/
structure StepOut where
  resp : Response
  store : Store
  effects : Effects
  deriving Repr, DecidableEq

/-- Python truthiness of the `Idempotency-Key` header value:
`if idempotency_key:` is `False` for `None` and for the empty string. -/
def keyTruthy : Option String → Bool
  | none => false
  | some s => !(s == "")

/-- `session.exec(select(Order).where(Order.idempotency_key == k)).first()`.
With `k = None` SQLAlchemy compiles the comparison to `IS NULL`, so the
lookup matches rows whose key is null. -/
def findByKey (s : Store) (k : Option String) : Option Order :=
  s.orders.find? (fun o => o.idempotency_key == k)

/-- The store's uniqueness constraint on non-null `idempotency_key`:
a commit of a row with key `some kk` violates it iff a row with that same
key is already persisted.  Null keys never conflict. -/
def keyConflict (s : Store) (k : Option String) : Bool :=
  match k with
  | none => false
  | some kk => s.orders.any (fun o => o.idempotency_key == some kk)

/-- The dedup fast path of `main.py` lines 33–38: only performed when the
header value is truthy, and yields the first stored order with that key. -/
def fastPath (s : Store) (k : Option String) : Option Order :=
  if keyTruthy k then findByKey s k else none

/-- `payment.get('balance', 'n/a')` rendered into the message. -/
def balanceText : Option Rat → String
  | some b => toString b
  | none => "n/a"

/-- The success message (f-string of `main.py`, withdrawal confirmed). -/
def successBody (price : Rat) (balance : Option Rat) : String :=
  "Письмо счастья: заказ на сумму " ++ toString price ++ " подтвержден. Баланс " ++ balanceText balance

/-- The failure message (f-string of `main.py`, withdrawal failed). -/
def failBody (price : Rat) (message : String) : String :=
  "Письмо горя: не удалось списать " ++ toString price ++ ". " ++ message

/-- The `try/except` around `billing_client.withdraw` (`main.py` lines 48–54):
yields `(withdrawal_success, message, balance-as-seen-by-the-f-string)`.
A thrown call gives `(False, "Billing unavailable", {})`; a returned payload
gives the `.get` defaults. -/
def billingOutcome : BillingResult → Bool × String × Option Rat
  | .exn => (false, "Billing unavailable", none)
  | .ok w m b => (w, m.getD "", b)

/-- The `create_order` handler of `main.py`, lines 28–92.

1. Dedup fast path: if the header is truthy, look up an existing order by
   that key and return it unchanged.
2. Identity resolution: any failure becomes a 404, nothing else happens.
3. Withdrawal attempt: a thrown billing call is downgraded to
   `withdrawn = False` with message `"Billing unavailable"`; a returned
   payload supplies `withdrawn`/`message` with `.get` defaults.
4. Classification: status `CONFIRMED` iff `withdrawal_success`; the email
   body is the success or failure f-string.
5. Commit: fails iff the store's key-uniqueness constraint is violated or
   the environment injects an `IntegrityError`; on failure the session is
   rolled back and the handler re-reads by the submitted key (null
   included), returning the row found or re-raising (500).
6. On a fresh successful insert the notification gateway is invoked. -/
def create_order (payload : OrderCreate) (idempotency_key : Option String)
    (env : Env) (session : Store) : StepOut :=
  match fastPath session idempotency_key with
  | some existing_order =>
      ⟨.created (orderRead existing_order), session, ⟨false, false, false⟩⟩
  | none =>
    match env.identity with
    | none => ⟨.notFound, session, ⟨true, false, false⟩⟩
    | some _user =>
      let outcome := billingOutcome env.billing
      let withdrawal_success := outcome.1
      let message := outcome.2.1
      let balance := outcome.2.2
      let status_value := if withdrawal_success then OrderStatus.CONFIRMED else OrderStatus.FAILED
      let email_body :=
        if withdrawal_success then successBody payload.price balance
        else failBody payload.price message
      if env.injectIntegrityError || keyConflict session idempotency_key then
        match findByKey session idempotency_key with
        | some existing_order =>
            ⟨.created (orderRead existing_order), session, ⟨true, true, false⟩⟩
        | none => ⟨.serverError, session, ⟨true, true, false⟩⟩
      else
        let order : Order :=
          ⟨session.nextId, payload.user_id, payload.price, status_value,
            email_body, session.nextId, idempotency_key⟩
        ⟨.created (orderRead order),
          ⟨session.orders ++ [order], session.nextId + 1⟩,
          ⟨true, true, true⟩⟩

/-- The row constructed and inserted on the fresh-insert path (the `Order(...)`
constructor call of `main.py` lines 63–70, with the id and timestamp the
store assigns at commit). -/
def freshOrder (payload : OrderCreate) (k : Option String) (env : Env) (s : Store) : Order :=
  ⟨s.nextId, payload.user_id, payload.price,
    if (billingOutcome env.billing).1 then OrderStatus.CONFIRMED else OrderStatus.FAILED,
    if (billingOutcome env.billing).1 then
      successBody payload.price (billingOutcome env.billing).2.2
    else failBody payload.price (billingOutcome env.billing).2.1,
    s.nextId, k⟩

/-- `POST /orders` including the pydantic request boundary: an invalid body
is rejected (422) before the handler runs. -/
def create_order_endpoint (raw : RawRequest) (idempotency_key : Option String)
    (env : Env) (session : Store) : StepOut :=
  match validateOrderCreate raw with
  | none => ⟨.unprocessable, session, ⟨false, false, false⟩⟩
  | some payload => create_order payload idempotency_key env session

/-- Store after `n` further sequential calls with the given payload and key,
call `i` seeing environment `envs i`. -/
def seqCalls (payload : OrderCreate) (k : Option String) (envs : Nat → Env) :
    Nat → Store → Store
  | 0, s => s
  | n + 1, s => seqCalls payload k envs n (create_order payload k (envs n) s).store

/-- Number of persisted orders carrying idempotency key `k`. -/
def countKey (s : Store) (k : String) : Nat :=
  (s.orders.filter (fun o => o.idempotency_key == some k)).length

/-- The boundary invariant of claimable rows: positive price, user id ≥ 1. -/
def ValidStore (s : Store) : Prop :=
  ∀ o ∈ s.orders, 0 < o.price ∧ 1 ≤ o.user_id

/-- `needle` occurs as a contiguous substring of `hay`. -/
def strContains (hay needle : String) : Prop :=
  needle.data <:+: hay.data

instance (hay needle : String) : Decidable (strContains hay needle) :=
  List.decidableInfix needle.data hay.data

/-- The middle factor of a three-way concatenation is a substring. -/
theorem strContains_append_mid (a b c : String) : strContains (a ++ b ++ c) b := by
  refine ⟨a.data, c.data, ?_⟩
  simp [strContains, String.data_append]

/-- The last factor of a three-way concatenation is a substring. -/
theorem strContains_append_last (a b c : String) : strContains (a ++ b ++ c) c := by
  refine ⟨(a ++ b).data, [], ?_⟩
  simp [strContains, String.data_append]

/-- `find?` over an append skips a prefix with no match. -/
theorem find?_append_of_none {α : Type} (p : α → Bool) (l₁ l₂ : List α)
    (h : l₁.find? p = none) : (l₁ ++ l₂).find? p = l₂.find? p := by
  rw [List.find?_append, h, Option.none_or]

/-- A non-empty header value is truthy. -/
theorem keyTruthy_some {k : String} (hk : ¬ k = "") : keyTruthy (some k) = true := by
  simp [keyTruthy, hk]

/-- Handler path: dedup fast-path hit returns the stored row, touches nothing
and calls no gateway. -/
theorem create_order_hit (payload : OrderCreate) (k : Option String) (env : Env)
    (s : Store) (e : Order) (hhit : fastPath s k = some e) :
    create_order payload k env s =
      ⟨Response.created (orderRead e), s, ⟨false, false, false⟩⟩ := by
  simp [create_order, hhit]

/-- Handler path: identity failure after a fast-path miss is a 404 with no
store change and no billing or notification call. -/
theorem create_order_identity_fail (payload : OrderCreate) (k : Option String)
    (env : Env) (s : Store) (hmiss : fastPath s k = none)
    (hid : env.identity = none) :
    create_order payload k env s = ⟨Response.notFound, s, ⟨true, false, false⟩⟩ := by
  simp [create_order, hmiss, hid]

/-- Handler path: a commit-time `IntegrityError` rolls back and re-reads by
the submitted key, returning the row found or surfacing a 500. -/
theorem create_order_recover (payload : OrderCreate) (k : Option String)
    (env : Env) (s : Store) (u : User) (hmiss : fastPath s k = none)
    (hid : env.identity = some u)
    (hfail : (env.injectIntegrityError || keyConflict s k) = true) :
    create_order payload k env s =
      match findByKey s k with
      | some e => ⟨Response.created (orderRead e), s, ⟨true, true, false⟩⟩
      | none => ⟨Response.serverError, s, ⟨true, true, false⟩⟩ := by
  cases hfe : findByKey s k <;> simp [create_order, hmiss, hid, hfail, hfe]

/-- Handler path: with no fast-path hit, resolved identity and a clean commit,
the constructed row is appended and returned, and notification fires. -/
theorem create_order_fresh (payload : OrderCreate) (k : Option String)
    (env : Env) (s : Store) (u : User) (hmiss : fastPath s k = none)
    (hid : env.identity = some u)
    (hok : (env.injectIntegrityError || keyConflict s k) = false) :
    create_order payload k env s =
      ⟨Response.created (orderRead (freshOrder payload k env s)),
        ⟨s.orders ++ [freshOrder payload k env s], s.nextId + 1⟩,
        ⟨true, true, true⟩⟩ := by
  simp [create_order, hmiss, hid, hok, freshOrder]

/-- If no stored row carries key `k`, the uniqueness constraint cannot fire. -/
theorem keyConflict_eq_false {s : Store} {k : String}
    (h : findByKey s (some k) = none) : keyConflict s (some k) = false := by
  show s.orders.any (fun o => o.idempotency_key == some k) = false
  exact List.any_eq_false.mpr (List.find?_eq_none.mp h)

/-- Substring via an explicit decomposition of the character data. -/
theorem strContains_of_data (hay b : String) (pre post : List Char)
    (h : hay.data = pre ++ b.data ++ post) : strContains hay b :=
  ⟨pre, post, h.symm⟩

/-- The success message mentions the withdrawn amount. -/
theorem successBody_contains_price (p : Rat) (b : Option Rat) :
    strContains (successBody p b) (toString p) := by
  apply strContains_of_data _ _ ("Письмо счастья: заказ на сумму ").data
    ((" подтвержден. Баланс ").data ++ (balanceText b).data)
  simp [successBody, String.data_append]

/-- The success message mentions the resulting balance (or its absence). -/
theorem successBody_contains_balance (p : Rat) (b : Option Rat) :
    strContains (successBody p b) (balanceText b) := by
  apply strContains_of_data _ _
    (("Письмо счастья: заказ на сумму ").data ++ (toString p).data ++ (" подтвержден. Баланс ").data) []
  simp [successBody, String.data_append]

/-- The failure message mentions the attempted amount. -/
theorem failBody_contains_price (p : Rat) (m : String) :
    strContains (failBody p m) (toString p) := by
  apply strContains_of_data _ _ ("Письмо горя: не удалось списать ").data
    ((". ").data ++ m.data)
  simp [failBody, String.data_append]

/-- The failure message ends with the reason it was given. -/
theorem failBody_contains_message (p : Rat) (m : String) :
    strContains (failBody p m) m := by
  apply strContains_of_data _ _
    (("Письмо горя: не удалось списать ").data ++ (toString p).data ++ (". ").data) []
  simp [failBody, String.data_append]

/-- C4 — Identity gate atomicity: with no dedup fast-path hit, any identity
failure yields a 404, leaves the store unchanged, and neither the ledger
gateway nor the notification gateway is invoked. -/
theorem identity_gate_atomicity (payload : OrderCreate) (k : Option String)
    (env : Env) (s : Store) (hmiss : fastPath s k = none)
    (hid : env.identity = none) :
    (create_order payload k env s).resp = Response.notFound ∧
    (create_order payload k env s).store = s ∧
    (create_order payload k env s).effects.billingCalled = false ∧
    (create_order payload k env s).effects.notified = false := by
  rw [create_order_identity_fail payload k env s hmiss hid]
  exact ⟨rfl, rfl, rfl, rfl⟩

/-- Witness for C4: concrete unreachable identity gateway on an empty store. -/
theorem identity_gate_atomicity_witness :
    (create_order ⟨1, 50⟩ none ⟨none, .exn, false⟩ ⟨[], 1⟩).resp = Response.notFound ∧
    (create_order ⟨1, 50⟩ none ⟨none, .exn, false⟩ ⟨[], 1⟩).store = ⟨[], 1⟩ ∧
    (create_order ⟨1, 50⟩ none ⟨none, .exn, false⟩ ⟨[], 1⟩).effects.billingCalled = false ∧
    (create_order ⟨1, 50⟩ none ⟨none, .exn, false⟩ ⟨[], 1⟩).effects.notified = false :=
  identity_gate_atomicity ⟨1, 50⟩ none ⟨none, .exn, false⟩ ⟨[], 1⟩ rfl rfl

/-- C10 — Replay ignores payload: when a truthy key matches a stored order,
the handler returns that order for any payload whatsoever, leaves the store
unchanged, and calls no identity, ledger or notification gateway. -/
theorem replay_ignores_payload (payload : OrderCreate) (k : String) (env : Env)
    (s : Store) (e : Order) (hk : ¬ k = "")
    (hfind : findByKey s (some k) = some e) :
    create_order payload (some k) env s =
      ⟨Response.created (orderRead e), s, ⟨false, false, false⟩⟩ := by
  apply create_order_hit
  simp [fastPath, keyTruthy_some hk, hfind]

/-- Witness for C10: the stored order for key `abc` has `user_id = 1`,
`price = 50`, yet a replay with `user_id = 7`, `price = 99` (and a broken
environment) returns it untouched. -/
theorem replay_ignores_payload_witness :
    create_order ⟨7, 99⟩ (some "abc") ⟨none, .exn, true⟩
        ⟨[⟨1, 1, 50, .CONFIRMED, "m", 1, some "abc"⟩], 2⟩ =
      ⟨Response.created ⟨1, 1, 50, .CONFIRMED, "m", 1⟩,
        ⟨[⟨1, 1, 50, .CONFIRMED, "m", 1, some "abc"⟩], 2⟩, ⟨false, false, false⟩⟩ :=
  replay_ignores_payload ⟨7, 99⟩ "abc" ⟨none, .exn, true⟩
    ⟨[⟨1, 1, 50, .CONFIRMED, "m", 1, some "abc"⟩], 2⟩
    ⟨1, 1, 50, .CONFIRMED, "m", 1, some "abc"⟩ (by decide) rfl

/-- C2 — Race recovery: when the commit of a new order with a present
idempotency key fails with an `IntegrityError` (the uniqueness constraint, or
a violation raised by a concurrent winner not visible in this snapshot), the
handler re-reads by that key and returns the row found; if the re-read finds
nothing, the error surfaces as a server fault.  These are the only two
outcomes, and the store is unchanged either way. -/
theorem race_recovery (payload : OrderCreate) (k : String) (env : Env)
    (s : Store) (u : User) (hmiss : fastPath s (some k) = none)
    (hid : env.identity = some u)
    (hfail : (env.injectIntegrityError || keyConflict s (some k)) = true) :
    (∀ e : Order, findByKey s (some k) = some e →
      create_order payload (some k) env s =
        ⟨Response.created (orderRead e), s, ⟨true, true, false⟩⟩) ∧
    (findByKey s (some k) = none →
      create_order payload (some k) env s =
        ⟨Response.serverError, s, ⟨true, true, false⟩⟩) := by
  have h := create_order_recover payload (some k) env s u hmiss hid hfail
  refine ⟨fun e he => ?_, fun he => ?_⟩ <;> rw [h, he]

/-- Witness for C2: key `""` is falsy for the fast path but present (non-null)
for the store, so the commit hits the uniqueness constraint and recovery
returns the stored row. -/
theorem race_recovery_witness :
    create_order ⟨1, 50⟩ (some "") ⟨some ⟨"u@example.com"⟩, .ok true none none, false⟩
        ⟨[⟨1, 1, 50, .FAILED, "m", 1, some ""⟩], 2⟩ =
      ⟨Response.created ⟨1, 1, 50, .FAILED, "m", 1⟩,
        ⟨[⟨1, 1, 50, .FAILED, "m", 1, some ""⟩], 2⟩, ⟨true, true, false⟩⟩ :=
  (race_recovery ⟨1, 50⟩ "" ⟨some ⟨"u@example.com"⟩, .ok true none none, false⟩
    ⟨[⟨1, 1, 50, .FAILED, "m", 1, some ""⟩], 2⟩ ⟨"u@example.com"⟩ rfl rfl rfl).1
    ⟨1, 1, 50, .FAILED, "m", 1, some ""⟩ rfl

/-- C3 (counterexample) — the claim says an integrity failure of a keyless
insert propagates as a storage fault and never returns a pre-existing order;
here such a failure returns the pre-existing keyless order instead. -/
theorem recovery_specificity_counterexample :
    create_order ⟨1, 50⟩ none ⟨some ⟨"u@example.com"⟩, .ok true none none, true⟩
        ⟨[⟨1, 1, 50, .CONFIRMED, "m", 1, none⟩], 2⟩ =
      ⟨Response.created ⟨1, 1, 50, .CONFIRMED, "m", 1⟩,
        ⟨[⟨1, 1, 50, .CONFIRMED, "m", 1, none⟩], 2⟩, ⟨true, true, false⟩⟩ ∧
    Response.created ⟨1, 1, 50, .CONFIRMED, "m", 1⟩ ≠ Response.serverError := by
  exact ⟨rfl, by decide⟩

/-- C3 (amended) — Recovery on any integrity failure: every commit-time
`IntegrityError` (key conflict or injected), for any submitted key including
none, triggers the same re-read by that key (`IS NULL` when absent): the row
found — possibly a pre-existing keyless row — is returned, and only a re-read
miss surfaces the error as a server fault. -/
theorem recovery_on_any_integrity_failure (payload : OrderCreate)
    (k : Option String) (env : Env) (s : Store) (u : User)
    (hmiss : fastPath s k = none) (hid : env.identity = some u)
    (hfail : (env.injectIntegrityError || keyConflict s k) = true) :
    (∀ e : Order, findByKey s k = some e →
      create_order payload k env s =
        ⟨Response.created (orderRead e), s, ⟨true, true, false⟩⟩) ∧
    (findByKey s k = none →
      create_order payload k env s =
        ⟨Response.serverError, s, ⟨true, true, false⟩⟩) := by
  have h := create_order_recover payload k env s u hmiss hid hfail
  refine ⟨fun e he => ?_, fun he => ?_⟩ <;> rw [h, he]

/-- Witness for C3's amended theorem: the counterexample input, recovered
through the null-key re-read. -/
theorem recovery_on_any_integrity_failure_witness :
    create_order ⟨1, 50⟩ none ⟨some ⟨"u@example.com"⟩, .ok true none none, true⟩
        ⟨[⟨1, 1, 50, .CONFIRMED, "m", 1, none⟩], 2⟩ =
      ⟨Response.created ⟨1, 1, 50, .CONFIRMED, "m", 1⟩,
        ⟨[⟨1, 1, 50, .CONFIRMED, "m", 1, none⟩], 2⟩, ⟨true, true, false⟩⟩ :=
  (recovery_on_any_integrity_failure ⟨1, 50⟩ none
    ⟨some ⟨"u@example.com"⟩, .ok true none none, true⟩
    ⟨[⟨1, 1, 50, .CONFIRMED, "m", 1, none⟩], 2⟩ ⟨"u@example.com"⟩ rfl rfl rfl).1
    ⟨1, 1, 50, .CONFIRMED, "m", 1, none⟩ rfl

/-- C5 (counterexample) — the claim says the message falls back to a generic
unavailability phrase whenever the gateway gave no reason; but when the
gateway declines without a reason the persisted message ends with an empty
reason and contains no unavailability phrase. -/
theorem outcome_classification_counterexample :
    (create_order ⟨1, 5⟩ none ⟨some ⟨"u@example.com"⟩, .ok false none none, false⟩
        ⟨[], 1⟩).resp =
      Response.created ⟨1, 1, 5, OrderStatus.FAILED,
        "Письмо горя: не удалось списать 5. ", 1⟩ ∧
    ¬ strContains "Письмо горя: не удалось списать 5. " "Billing unavailable" :=
  ⟨rfl, by decide⟩

/-- C5 (amended) — Outcome classification: on the insert path the persisted
and returned order has `status = CONFIRMED` iff the ledger reported success;
the message is a deterministic function of the outcome: on success it
contains the withdrawn amount and the resulting balance, on a decline it
contains the attempted amount and the reason the gateway gave (empty when it
gave none), and the generic phrase `Billing unavailable` is used exactly when
the gateway call itself failed. -/
theorem outcome_classification (payload : OrderCreate) (k : Option String)
    (env : Env) (s : Store) (u : User) (hmiss : fastPath s k = none)
    (hid : env.identity = some u)
    (hok : (env.injectIntegrityError || keyConflict s k) = false) :
    ∃ o : Order,
      create_order payload k env s =
        ⟨Response.created (orderRead o), ⟨s.orders ++ [o], s.nextId + 1⟩,
          ⟨true, true, true⟩⟩ ∧
      (o.status = OrderStatus.CONFIRMED ↔ ∃ m b, env.billing = .ok true m b) ∧
      (∀ m b, env.billing = .ok true m b →
        o.message = successBody payload.price b ∧
        strContains o.message (toString payload.price) ∧
        strContains o.message (balanceText b)) ∧
      (∀ m b, env.billing = .ok false m b →
        o.message = failBody payload.price (m.getD "") ∧
        strContains o.message (toString payload.price) ∧
        strContains o.message (m.getD "")) ∧
      (env.billing = .exn →
        o.message = failBody payload.price "Billing unavailable" ∧
        strContains o.message "Billing unavailable") := by
  refine ⟨freshOrder payload k env s,
    create_order_fresh payload k env s u hmiss hid hok, ?_, ?_, ?_, ?_⟩
  · cases hb : env.billing with
    | exn => simp [freshOrder, billingOutcome, hb]
    | ok w m b => cases w <;> simp [freshOrder, billingOutcome, hb]
  · intro m b hb
    have hmsg : (freshOrder payload k env s).message = successBody payload.price b := by
      simp [freshOrder, billingOutcome, hb]
    rw [hmsg]
    exact ⟨rfl, successBody_contains_price _ _, successBody_contains_balance _ _⟩
  · intro m b hb
    have hmsg : (freshOrder payload k env s).message = failBody payload.price (m.getD "") := by
      simp [freshOrder, billingOutcome, hb]
    rw [hmsg]
    exact ⟨rfl, failBody_contains_price _ _, failBody_contains_message _ _⟩
  · intro hb
    have hmsg : (freshOrder payload k env s).message = failBody payload.price "Billing unavailable" := by
      simp [freshOrder, billingOutcome, hb]
    rw [hmsg]
    exact ⟨rfl, failBody_contains_message _ _⟩

/-- Witness for C5's amended theorem: a confirmed withdrawal with balance 450
on an empty store. -/
theorem outcome_classification_witness :
    ∃ o : Order,
      create_order ⟨1, 50⟩ none ⟨some ⟨"u@example.com"⟩, .ok true (some "ok") (some 450), false⟩
          ⟨[], 1⟩ =
        ⟨Response.created (orderRead o), ⟨[] ++ [o], 1 + 1⟩, ⟨true, true, true⟩⟩ ∧
      (o.status = OrderStatus.CONFIRMED ↔
        ∃ m b, (BillingResult.ok true (some "ok") (some 450) : BillingResult) = .ok true m b) ∧
      (∀ m b, (BillingResult.ok true (some "ok") (some 450) : BillingResult) = .ok true m b →
        o.message = successBody 50 b ∧
        strContains o.message (toString (50 : Rat)) ∧
        strContains o.message (balanceText b)) ∧
      (∀ m b, (BillingResult.ok true (some "ok") (some 450) : BillingResult) = .ok false m b →
        o.message = failBody 50 (m.getD "") ∧
        strContains o.message (toString (50 : Rat)) ∧
        strContains o.message (m.getD "")) ∧
      ((BillingResult.ok true (some "ok") (some 450) : BillingResult) = .exn →
        o.message = failBody 50 "Billing unavailable" ∧
        strContains o.message "Billing unavailable") :=
  outcome_classification ⟨1, 50⟩ none
    ⟨some ⟨"u@example.com"⟩, .ok true (some "ok") (some 450), false⟩
    ⟨[], 1⟩ ⟨"u@example.com"⟩ rfl rfl rfl

/-- C6 — Ledger-failure absorption: past identity resolution, every billing
failure mode (decline or thrown call) still persists an order with
`status = FAILED` and returns it as a normal creation response. -/
theorem ledger_failure_absorption (payload : OrderCreate) (k : Option String)
    (env : Env) (s : Store) (u : User) (hmiss : fastPath s k = none)
    (hid : env.identity = some u)
    (hfailb : env.billing = .exn ∨ ∃ m b, env.billing = .ok false m b)
    (hok : (env.injectIntegrityError || keyConflict s k) = false) :
    ∃ o : Order, o.status = OrderStatus.FAILED ∧
      create_order payload k env s =
        ⟨Response.created (orderRead o), ⟨s.orders ++ [o], s.nextId + 1⟩,
          ⟨true, true, true⟩⟩ := by
  refine ⟨freshOrder payload k env s, ?_,
    create_order_fresh payload k env s u hmiss hid hok⟩
  rcases hfailb with h | ⟨m, b, h⟩ <;> simp [freshOrder, billingOutcome, h]

/-- Witness for C6: the billing gateway throws, yet an order is persisted as
`FAILED` and returned. -/
theorem ledger_failure_absorption_witness :
    ∃ o : Order, o.status = OrderStatus.FAILED ∧
      create_order ⟨1, 50⟩ none ⟨some ⟨"u@example.com"⟩, .exn, false⟩ ⟨[], 1⟩ =
        ⟨Response.created (orderRead o), ⟨[] ++ [o], 1 + 1⟩, ⟨true, true, true⟩⟩ :=
  ledger_failure_absorption ⟨1, 50⟩ none ⟨some ⟨"u@example.com"⟩, .exn, false⟩
    ⟨[], 1⟩ ⟨"u@example.com"⟩ rfl rfl (Or.inl rfl) rfl

/-- C7 — No-key independence: two sequential keyless calls with the same
payload each persist their own order, with distinct surrogate ids. -/
theorem no_key_independence (payload : OrderCreate) (env1 env2 : Env)
    (s : Store) (u1 u2 : User) (hid1 : env1.identity = some u1)
    (hid2 : env2.identity = some u2)
    (hinj1 : env1.injectIntegrityError = false)
    (hinj2 : env2.injectIntegrityError = false) :
    ∃ o1 o2 : Order,
      (create_order payload none env1 s).resp = Response.created (orderRead o1) ∧
      (create_order payload none env2 (create_order payload none env1 s).store).resp =
        Response.created (orderRead o2) ∧
      (create_order payload none env2 (create_order payload none env1 s).store).store.orders =
        s.orders ++ [o1, o2] ∧
      ¬ o1.id = o2.id := by
  have hc1 : (env1.injectIntegrityError || keyConflict s none) = false := by
    simp [keyConflict, hinj1]
  have h1 := create_order_fresh payload none env1 s u1 rfl hid1 hc1
  set o1 := freshOrder payload none env1 s with ho1
  set s1 : Store := ⟨s.orders ++ [o1], s.nextId + 1⟩ with hs1
  have hc2 : (env2.injectIntegrityError || keyConflict s1 none) = false := by
    simp [keyConflict, hinj2]
  have h2 := create_order_fresh payload none env2 s1 u2 rfl hid2 hc2
  refine ⟨o1, freshOrder payload none env2 s1, ?_, ?_, ?_, ?_⟩
  · rw [h1]
  · rw [h1]; exact congrArg StepOut.resp h2
  · rw [h1]
    show (create_order payload none env2 s1).store.orders = s.orders ++ [o1, freshOrder payload none env2 s1]
    rw [h2]
    simp
  · show ¬ s.nextId = s.nextId + 1
    omega

/-- Witness for C7: two identical keyless submissions on an empty store leave
two rows with ids 1 and 2. -/
theorem no_key_independence_witness :
    ∃ o1 o2 : Order,
      (create_order ⟨1, 50⟩ none ⟨some ⟨"u@example.com"⟩, .ok true none none, false⟩ ⟨[], 1⟩).resp =
        Response.created (orderRead o1) ∧
      (create_order ⟨1, 50⟩ none ⟨some ⟨"u@example.com"⟩, .ok true none none, false⟩
          (create_order ⟨1, 50⟩ none ⟨some ⟨"u@example.com"⟩, .ok true none none, false⟩ ⟨[], 1⟩).store).resp =
        Response.created (orderRead o2) ∧
      (create_order ⟨1, 50⟩ none ⟨some ⟨"u@example.com"⟩, .ok true none none, false⟩
          (create_order ⟨1, 50⟩ none ⟨some ⟨"u@example.com"⟩, .ok true none none, false⟩ ⟨[], 1⟩).store).store.orders =
        [] ++ [o1, o2] ∧
      ¬ o1.id = o2.id :=
  no_key_independence ⟨1, 50⟩ ⟨some ⟨"u@example.com"⟩, .ok true none none, false⟩
    ⟨some ⟨"u@example.com"⟩, .ok true none none, false⟩ ⟨[], 1⟩
    ⟨"u@example.com"⟩ ⟨"u@example.com"⟩ rfl rfl rfl rfl

/-- C9 — Notification asymmetry: the notification gateway fires exactly when
a freshly created order was committed (the response carries it and the store
grew by that row); it never fires on a dedup fast-path hit nor on the
race-recovery path. -/
theorem notification_asymmetry (payload : OrderCreate) (k : Option String)
    (env : Env) (s : Store) :
    ((create_order payload k env s).effects.notified = true ↔
      ∃ o : Order,
        (create_order payload k env s).resp = Response.created (orderRead o) ∧
        (create_order payload k env s).store.orders = s.orders ++ [o]) ∧
    (∀ e : Order, fastPath s k = some e →
      (create_order payload k env s).effects.notified = false) ∧
    ((env.injectIntegrityError || keyConflict s k) = true →
      (create_order payload k env s).effects.notified = false) := by
  cases hfp : fastPath s k with
  | some e =>
    rw [create_order_hit payload k env s e hfp]
    refine ⟨iff_of_false (by simp) ?_, fun _ _ => rfl, fun _ => rfl⟩
    rintro ⟨o, -, h2⟩
    have h3 := congrArg List.length h2
    simp at h3
  | none =>
    cases hid : env.identity with
    | none =>
      rw [create_order_identity_fail payload k env s hfp hid]
      refine ⟨iff_of_false (by simp) ?_, fun _ _ => rfl, fun _ => rfl⟩
      rintro ⟨o, -, h2⟩
      have h3 := congrArg List.length h2
      simp at h3
    | some u =>
      cases hfail : (env.injectIntegrityError || keyConflict s k) with
      | true =>
        have h := create_order_recover payload k env s u hfp hid hfail
        cases hfe : findByKey s k with
        | some e =>
          rw [h, hfe]
          refine ⟨iff_of_false (by simp) ?_, fun _ _ => rfl, fun _ => rfl⟩
          rintro ⟨o, -, h2⟩
          have h3 := congrArg List.length h2
          simp at h3
        | none =>
          rw [h, hfe]
          refine ⟨iff_of_false (by simp) ?_, fun _ _ => rfl, fun _ => rfl⟩
          rintro ⟨o, -, h2⟩
          have h3 := congrArg List.length h2
          simp at h3
      | false =>
        rw [create_order_fresh payload k env s u hfp hid hfail]
        refine ⟨iff_of_true rfl ⟨freshOrder payload k env s, rfl, rfl⟩, ?_, ?_⟩
        · intro e he
          simp at he
        · intro hcontra
          simp at hcontra

/-- C8 — Price invariant at the boundary: a request with `user_id < 1` or
`price ≤ 0` is rejected before any order is constructed, so a store in which
every row has positive price and `user_id ≥ 1` stays that way through the
endpoint. -/
theorem price_invariant (raw : RawRequest) (k : Option String) (env : Env)
    (s : Store) (hs : ValidStore s) :
    ValidStore (create_order_endpoint raw k env s).store ∧
    (¬ (1 ≤ raw.user_id ∧ 0 < raw.price) →
      create_order_endpoint raw k env s =
        ⟨Response.unprocessable, s, ⟨false, false, false⟩⟩) := by
  by_cases hv : 1 ≤ raw.user_id ∧ 0 < raw.price
  · have hep : create_order_endpoint raw k env s =
        create_order ⟨raw.user_id, raw.price⟩ k env s := by
      simp [create_order_endpoint, validateOrderCreate, hv]
    refine ⟨?_, fun hv' => absurd hv hv'⟩
    rw [hep]
    cases hfp : fastPath s k with
    | some e => rw [create_order_hit _ k env s e hfp]; exact hs
    | none =>
      cases hid : env.identity with
      | none => rw [create_order_identity_fail _ k env s hfp hid]; exact hs
      | some u =>
        cases hfail : (env.injectIntegrityError || keyConflict s k) with
        | true =>
          rw [create_order_recover _ k env s u hfp hid hfail]
          cases hfe : findByKey s k <;> exact hs
        | false =>
          rw [create_order_fresh _ k env s u hfp hid hfail]
          intro o ho
          rcases List.mem_append.mp ho with h | h
          · exact hs o h
          · have : o = freshOrder ⟨raw.user_id, raw.price⟩ k env s :=
              List.mem_singleton.mp h
            rw [this]
            exact ⟨hv.2, hv.1⟩
  · have hep : create_order_endpoint raw k env s =
        ⟨Response.unprocessable, s, ⟨false, false, false⟩⟩ := by
      simp [create_order_endpoint, validateOrderCreate, hv]
    exact ⟨by rw [hep]; exact hs, fun _ => hep⟩

/-- Witness for C8: an invalid body (`user_id = 0`) on a valid one-row store
is rejected with no store change. -/
theorem price_invariant_witness :
    ValidStore (create_order_endpoint ⟨0, 50⟩ none ⟨none, .exn, false⟩
      ⟨[⟨1, 1, 50, .CONFIRMED, "m", 1, none⟩], 2⟩).store ∧
    (¬ (1 ≤ (0 : Int) ∧ 0 < (50 : Rat)) →
      create_order_endpoint ⟨0, 50⟩ none ⟨none, .exn, false⟩
          ⟨[⟨1, 1, 50, .CONFIRMED, "m", 1, none⟩], 2⟩ =
        ⟨Response.unprocessable, ⟨[⟨1, 1, 50, .CONFIRMED, "m", 1, none⟩], 2⟩,
          ⟨false, false, false⟩⟩) :=
  price_invariant ⟨0, 50⟩ none ⟨none, .exn, false⟩
    ⟨[⟨1, 1, 50, .CONFIRMED, "m", 1, none⟩], 2⟩
    (by intro o ho; simp at ho; rw [ho]; exact ⟨by norm_num, by norm_num⟩)

/-- C1 — Sequential idempotency: starting with no order under a truthy key
`k`, a first successful creation persists exactly one order carrying `k` and
returns it; thereafter any single replay (any environment) and any number of
further sequential calls return that same order's representation, leave the
store untouched, and the store always holds exactly one order with key `k`. -/
theorem sequential_idempotency (k : String) (payload : OrderCreate)
    (env : Env) (s : Store) (u : User) (hk : ¬ k = "")
    (h0 : findByKey s (some k) = none) (hid : env.identity = some u)
    (hinj : env.injectIntegrityError = false) :
    ∃ o : Order,
      o.idempotency_key = some k ∧
      (create_order payload (some k) env s).resp = Response.created (orderRead o) ∧
      countKey (create_order payload (some k) env s).store k = 1 ∧
      (∀ env' : Env,
        create_order payload (some k) env' (create_order payload (some k) env s).store =
          ⟨Response.created (orderRead o),
            (create_order payload (some k) env s).store, ⟨false, false, false⟩⟩) ∧
      (∀ (envs : Nat → Env) (n : Nat),
        seqCalls payload (some k) envs n (create_order payload (some k) env s).store =
          (create_order payload (some k) env s).store ∧
        countKey (seqCalls payload (some k) envs n
          (create_order payload (some k) env s).store) k = 1) := by
  have hmiss : fastPath s (some k) = none := by
    simp [fastPath, keyTruthy_some hk, h0]
  have hok : (env.injectIntegrityError || keyConflict s (some k)) = false := by
    rw [hinj, keyConflict_eq_false h0]
    rfl
  have h1 := create_order_fresh payload (some k) env s u hmiss hid hok
  set o := freshOrder payload (some k) env s with ho
  set s1 : Store := ⟨s.orders ++ [o], s.nextId + 1⟩ with hs1
  have hkey : o.idempotency_key = some k := rfl
  have hfind1 : findByKey s1 (some k) = some o := by
    show (s.orders ++ [o]).find? (fun x => x.idempotency_key == some k) = some o
    rw [find?_append_of_none _ _ _ h0]
    simp [List.find?, hkey]
  have hreplay : ∀ env' : Env,
      create_order payload (some k) env' s1 =
        ⟨Response.created (orderRead o), s1, ⟨false, false, false⟩⟩ := by
    intro env'
    apply create_order_hit
    simp [fastPath, keyTruthy_some hk, hfind1]
  have hcount : countKey s1 k = 1 := by
    show ((s.orders ++ [o]).filter (fun x => x.idempotency_key == some k)).length = 1
    rw [List.filter_append]
    have hnil : s.orders.filter (fun x => x.idempotency_key == some k) = [] :=
      List.filter_eq_nil_iff.mpr (List.find?_eq_none.mp h0)
    rw [hnil]
    simp [List.filter, hkey]
  have hstable : ∀ (envs : Nat → Env) (n : Nat),
      seqCalls payload (some k) envs n s1 = s1 := by
    intro envs n
    induction n with
    | zero => rfl
    | succ m ih =>
      show seqCalls payload (some k) envs m
        (create_order payload (some k) (envs m) s1).store = s1
      rw [hreplay (envs m)]
      exact ih
  rw [h1]
  exact ⟨o, hkey, rfl, hcount, hreplay,
    fun envs n => ⟨hstable envs n, by rw [hstable envs n]; exact hcount⟩⟩

/-- Witness for C1: key `abc`, empty store, a confirming first environment. -/
theorem sequential_idempotency_witness :
    ∃ o : Order,
      o.idempotency_key = some "abc" ∧
      (create_order ⟨1, 50⟩ (some "abc")
        ⟨some ⟨"u@example.com"⟩, .ok true none (some 450), false⟩ ⟨[], 1⟩).resp =
        Response.created (orderRead o) ∧
      countKey (create_order ⟨1, 50⟩ (some "abc")
        ⟨some ⟨"u@example.com"⟩, .ok true none (some 450), false⟩ ⟨[], 1⟩).store "abc" = 1 ∧
      (∀ env' : Env,
        create_order ⟨1, 50⟩ (some "abc") env'
            (create_order ⟨1, 50⟩ (some "abc")
              ⟨some ⟨"u@example.com"⟩, .ok true none (some 450), false⟩ ⟨[], 1⟩).store =
          ⟨Response.created (orderRead o),
            (create_order ⟨1, 50⟩ (some "abc")
              ⟨some ⟨"u@example.com"⟩, .ok true none (some 450), false⟩ ⟨[], 1⟩).store,
            ⟨false, false, false⟩⟩) ∧
      (∀ (envs : Nat → Env) (n : Nat),
        seqCalls ⟨1, 50⟩ (some "abc") envs n
            (create_order ⟨1, 50⟩ (some "abc")
              ⟨some ⟨"u@example.com"⟩, .ok true none (some 450), false⟩ ⟨[], 1⟩).store =
          (create_order ⟨1, 50⟩ (some "abc")
            ⟨some ⟨"u@example.com"⟩, .ok true none (some 450), false⟩ ⟨[], 1⟩).store ∧
        countKey (seqCalls ⟨1, 50⟩ (some "abc") envs n
          (create_order ⟨1, 50⟩ (some "abc")
            ⟨some ⟨"u@example.com"⟩, .ok true none (some 450), false⟩ ⟨[], 1⟩).store) "abc" = 1) :=
  sequential_idempotency "abc" ⟨1, 50⟩
    ⟨some ⟨"u@example.com"⟩, .ok true none (some 450), false⟩ ⟨[], 1⟩
    ⟨"u@example.com"⟩ (by decide) rfl rfl rfl

end OrderService
